import Mathlib

/-!
Verification of the SDS generator repository (two Streamlit pages:
`hazard_checker.py` and `chemical_safety_checker.py`).

Python strings are modelled as Lean `String` (a wrapper around `List Char`),
Python dicts with string keys as association lists `List (String × _)`
looked up with `List.lookup` (the dict literals have pairwise distinct keys,
so first-match lookup agrees with Python dict semantics), and Python lists
as Lean lists.  A Python value that may be a string or not (the entries of
the `hazards` list, which `interpret_hazards` fills with strings and with
integer `aid`s) is modelled by the sum type `PyHazard`.
-/

namespace SDSGen

/-- A value of `hazard_map` in either file: `{'symbol': ..., 'name': ...}`. -/
structure HazardInfo where
  symbol : String
  name : String
deriving DecidableEq, Repr

/-- An entry of the `hazards` list handed to `get_ppe_recommendations` /
`generate_sds`: either a Python string or a non-string value (an integer
`aid` appended by `interpret_hazards`). -/
inductive PyHazard where
  | str (s : String)
  | nonStr (n : Int)
deriving DecidableEq, Repr

/-- Python `str()` of a hazard entry, as interpolated into HTML. -/
def PyHazard.pyStr : PyHazard → String
  | .str s => s
  | .nonStr n => toString n

/-! ### hazard_checker.py -/

/-- `hazard_map` of `hazard_checker.py` (lines 12-19). -/
def hc_hazard_map : List (String × HazardInfo) :=
  [ ("H200", ⟨"💥", "Explosive"⟩),
    ("H220", ⟨"🔥", "Extremely flammable gas"⟩),
    ("H300", ⟨"☠️", "Fatal if swallowed"⟩),
    ("H314", ⟨"⚠️", "Causes severe skin burns and eye damage"⟩),
    ("H400", ⟨"🐟", "Very toxic to aquatic life"⟩) ]

/-- `handling_instructions` of `hazard_checker.py` (lines 22-29). -/
def hc_handling_instructions : List (String × String) :=
  [ ("H200", "Handle with care. Avoid impact and friction."),
    ("H220", "Keep away from heat, sparks, open flames, and hot surfaces."),
    ("H300", "If swallowed, seek medical attention immediately."),
    ("H314", "Wear protective gloves and eye protection."),
    ("H400", "Avoid release to the environment. Collect spillage.") ]

/-- What the hazard-checker page renders below the input box. -/
inductive HCOutput where
  | found (symbol name instruction : String)
  | notFound (warning : String)
deriving DecidableEq, Repr

/-- The body of `main` in `hazard_checker.py` (lines 38-45) for one typed
code: nothing is rendered for the empty (falsy) string; otherwise the
symbol/name/instruction block or the not-found warning. -/
def hazard_checker_page (hazard_code : String) : Option HCOutput :=
  if hazard_code = "" then none
  else some (match hc_hazard_map.lookup hazard_code with
    | some hazard_info =>
        HCOutput.found hazard_info.symbol hazard_info.name
          ((hc_handling_instructions.lookup hazard_code).getD
            "No specific handling instructions available.")
    | none => HCOutput.notFound "Hazard code not found. Please enter a valid code.")

/-! ### chemical_safety_checker.py: hazard_to_symbol -/

/-- The dict literal inside `hazard_to_symbol` (lines 113-175). -/
def chem_hazard_map : List (String × HazardInfo) :=
  [ ("H200", ⟨"💥", "Explosive"⟩),
    ("H201", ⟨"💥", "Explosive: mass explosion hazard"⟩),
    ("H202", ⟨"💥", "Explosive: severe projection hazard"⟩),
    ("H220", ⟨"🔥", "Extremely flammable gas"⟩),
    ("H221", ⟨"🔥", "Flammable gas"⟩),
    ("H222", ⟨"🔥", "Extremely flammable aerosol"⟩),
    ("H223", ⟨"🔥", "Flammable aerosol"⟩),
    ("H224", ⟨"🔥", "Extremely flammable liquid and vapor"⟩),
    ("H225", ⟨"🔥", "Highly flammable liquid and vapor"⟩),
    ("H226", ⟨"🔥", "Flammable liquid and vapor"⟩),
    ("H228", ⟨"🔥", "Flammable solid"⟩),
    ("H240", ⟨"💥🔥", "Heating may cause an explosion"⟩),
    ("H241", ⟨"💥🔥", "Heating may cause a fire or explosion"⟩),
    ("H242", ⟨"🔥", "Heating may cause a fire"⟩),
    ("H250", ⟨"🔥", "Catches fire spontaneously if exposed to air"⟩),
    ("H251", ⟨"🔥", "Self-heating; may catch fire"⟩),
    ("H252", ⟨"🔥", "Self-heating in large quantities; may catch fire"⟩),
    ("H260", ⟨"💧🔥", "In contact with water releases flammable gases which may ignite spontaneously"⟩),
    ("H261", ⟨"💧🔥", "In contact with water releases flammable gas"⟩),
    ("H270", ⟨"🔥🔄", "May cause or intensify fire; oxidizer"⟩),
    ("H271", ⟨"🔥❗", "May cause fire or explosion; strong oxidizer"⟩),
    ("H272", ⟨"🔥", "May intensify fire; oxidizer"⟩),
    ("H280", ⟨"🏺", "Contains gas under pressure; may explode if heated"⟩),
    ("H281", ⟨"🏺❄️", "Contains refrigerated gas; may cause cryogenic burns or injury"⟩),
    ("H290", ⟨"⚡", "May be corrosive to metals"⟩),
    ("H300", ⟨"☠️", "Fatal if swallowed"⟩),
    ("H301", ⟨"☠️", "Toxic if swallowed"⟩),
    ("H302", ⟨"⚠️", "Harmful if swallowed"⟩),
    ("H304", ⟨"⚠️", "May be fatal if swallowed and enters airways"⟩),
    ("H310", ⟨"☠️", "Fatal in contact with skin"⟩),
    ("H311", ⟨"☠️", "Toxic in contact with skin"⟩),
    ("H312", ⟨"⚠️", "Harmful in contact with skin"⟩),
    ("H314", ⟨"⚠️", "Causes severe skin burns and eye damage"⟩),
    ("H315", ⟨"⚠️", "Causes skin irritation"⟩),
    ("H317", ⟨"⚠️", "May cause an allergic skin reaction"⟩),
    ("H318", ⟨"⚠️👁️", "Causes serious eye damage"⟩),
    ("H319", ⟨"⚠️👁️", "Causes serious eye irritation"⟩),
    ("H330", ⟨"☠️", "Fatal if inhaled"⟩),
    ("H331", ⟨"☠️", "Toxic if inhaled"⟩),
    ("H332", ⟨"⚠️", "Harmful if inhaled"⟩),
    ("H334", ⟨"⚠️", "May cause allergy or asthma symptoms or breathing difficulties if inhaled"⟩),
    ("H335", ⟨"⚠️", "May cause respiratory irritation"⟩),
    ("H336", ⟨"⚠️", "May cause drowsiness or dizziness"⟩),
    ("H340", ⟨"⚠️", "May cause genetic defects"⟩),
    ("H341", ⟨"⚠️", "Suspected of causing genetic defects"⟩),
    ("H350", ⟨"⚠️", "May cause cancer"⟩),
    ("H351", ⟨"⚠️", "Suspected of causing cancer"⟩),
    ("H360", ⟨"⚠️", "May damage fertility or the unborn child"⟩),
    ("H361", ⟨"⚠️", "Suspected of damaging fertility or the unborn child"⟩),
    ("H362", ⟨"⚠️", "May cause harm to breast-fed children"⟩),
    ("H370", ⟨"⚠️🧠", "Causes damage to organs"⟩),
    ("H371", ⟨"⚠️🧠", "May cause damage to organs"⟩),
    ("H372", ⟨"⚠️🧠", "Causes damage to organs through prolonged or repeated exposure"⟩),
    ("H373", ⟨"⚠️🧠", "May cause damage to organs through prolonged or repeated exposure"⟩),
    ("H400", ⟨"🐟", "Very toxic to aquatic life"⟩),
    ("H401", ⟨"🐟", "Toxic to aquatic life"⟩),
    ("H402", ⟨"🐟", "Harmful to aquatic life"⟩),
    ("H410", ⟨"🐟💀", "Very toxic to aquatic life with long lasting effects"⟩),
    ("H411", ⟨"🐟💀", "Toxic to aquatic life with long lasting effects"⟩),
    ("H412", ⟨"🐟💀", "Harmful to aquatic life with long lasting effects"⟩),
    ("H413", ⟨"🐟", "May cause long lasting harmful effects to aquatic life"⟩) ]

/-- The default of `hazard_map.get` in `hazard_to_symbol` (line 177). -/
def unknown_hazard : HazardInfo := ⟨"❓", "Unknown hazard"⟩

/-- `hazard_to_symbol` (lines 111-177): dict get with a default. -/
def hazard_to_symbol (hazard_code : String) : HazardInfo :=
  (chem_hazard_map.lookup hazard_code).getD unknown_hazard

/-- `hazard_to_symbol` as applied to a raw hazard entry in `generate_sds`
(line 250): a non-string key never equals a string key of the dict, so the
lookup falls back to the default. -/
def hazard_to_symbol_entry : PyHazard → HazardInfo
  | .str s => hazard_to_symbol s
  | .nonStr _ => unknown_hazard

/-! ### Hazard-code extraction (string splitting) -/

/-- Python `hazard.split(':')[0]`: the characters before the first colon
(the whole string when there is none). -/
def splitColonHead : List Char → List Char
  | [] => []
  | c :: cs => if c = ':' then [] else c :: splitColonHead cs

/-- `hazard.split(':')[0] if ':' in hazard else hazard`
(lines 192 and 329 of `chemical_safety_checker.py`). -/
def extract_code (hazard : String) : String :=
  if hazard.data.contains ':' then ⟨splitColonHead hazard.data⟩ else hazard

/-! ### get_ppe_recommendations -/

/-- A PPE recommendation dict `{'item': ..., 'description': ...}`. -/
structure PPE where
  item : String
  description : String
deriving DecidableEq, Repr

/-- The basic PPE appended first (lines 184-187). -/
def safety_glasses : PPE := ⟨"Safety Glasses", "Basic eye protection"⟩

def respirator : PPE := ⟨"Respirator", "Protection against inhalation of toxic substances"⟩

def gloves : PPE := ⟨"Gloves", "Chemical-resistant gloves"⟩

def face_shield : PPE := ⟨"Face Shield", "Additional face and eye protection"⟩

def chemical_apron : PPE := ⟨"Chemical Apron", "Protection against skin contact"⟩

def flame_resistant_clothing : PPE := ⟨"Flame-Resistant Clothing", "Protection against fire hazards"⟩

def full_body_suit : PPE := ⟨"Full Body Suit", "Complete protection against carcinogens"⟩

/-- The code list of line 194. -/
def toxic_codes : List String :=
  ["H300", "H301", "H302", "H304", "H310", "H311", "H312", "H330", "H331", "H332"]

/-- The code list of line 204. -/
def corrosive_codes : List String := ["H314", "H315", "H318", "H319"]

/-- The code list of line 214. -/
def flammable_codes : List String := ["H220", "H221", "H222", "H223", "H224", "H225", "H226"]

/-- The code list of line 220. -/
def carcinogen_codes : List String := ["H340", "H341", "H350", "H351"]

/-- The recommendations appended for one extracted hazard code: the four
independent `if hazard_code in [...]` blocks of lines 194-224, in order. -/
def code_ppe (hazard_code : String) : List PPE :=
  (if hazard_code ∈ toxic_codes then [respirator, gloves] else []) ++
  (if hazard_code ∈ corrosive_codes then [face_shield, chemical_apron] else []) ++
  (if hazard_code ∈ flammable_codes then [flame_resistant_clothing] else []) ++
  (if hazard_code ∈ carcinogen_codes then [full_body_suit] else [])

/-- One iteration of the `for hazard in hazards` loop (lines 190-224):
non-string entries fail the `isinstance` test and append nothing. -/
def ppe_for_hazard : PyHazard → List PPE
  | .str s => code_ppe (extract_code s)
  | .nonStr _ => []

/-- The `ppe_recommendations` list as it stands before deduplication
(lines 181-224): safety glasses, then the per-hazard appends in loop order. -/
def raw_ppe_recommendations (hazards : List PyHazard) : List PPE :=
  safety_glasses :: hazards.flatMap ppe_for_hazard

/-- The deduplication loop of lines 226-232: keep a record when its `item`
has not been seen, remembering seen items. -/
def remove_dup_items (seen : List String) : List PPE → List PPE
  | [] => []
  | r :: rest =>
      if r.item ∈ seen then remove_dup_items seen rest
      else r :: remove_dup_items (r.item :: seen) rest

/-- `get_ppe_recommendations` (lines 179-234). -/
def get_ppe_recommendations (hazards : List PyHazard) : List PPE :=
  remove_dup_items [] (raw_ppe_recommendations hazards)

/-! ### generate_sds (lines 236-297) -/

/-- The f-string of lines 238-247 up to the interpolated chemical name. -/
def sds_header_before_name : String :=
  "\n    <div style=\"border: 1px solid #ddd; padding: 20px; border-radius: 5px; margin-bottom: 20px;\">\n        <h1>Simple Safety Data Sheet (SDS)</h1>\n        <h2>1. Identification</h2>\n        <p><strong>Product Name:</strong> "

/-- The f-string of lines 238-247 after the interpolated chemical name. -/
def sds_header_after_name : String :=
  "</p>\n        \n        <h2>2. Hazard Identification</h2>\n        <p><strong>Hazard Classification:</strong></p>\n        <ul>\n    "

/-- One hazard list item appended by the loop of lines 249-253. -/
def sds_hazard_li (hazard : PyHazard) : String :=
  "\n            <li>" ++ (hazard_to_symbol_entry hazard).symbol ++ " " ++
    (hazard_to_symbol_entry hazard).name ++ " (" ++ hazard.pyStr ++ ")</li>\n        "

/-- The fixed section 4 text of lines 261-268. -/
def sds_first_aid_section : String :=
  "<h2>4. First-Aid Measures</h2>\n        <p>If exposed:</p>\n        <ul>\n            <li>Inhalation: Move to fresh air immediately</li>\n            <li>Skin contact: Wash with soap and water</li>\n            <li>Eye contact: Flush with water for at least 15 minutes</li>\n            <li>Ingestion: Seek medical attention immediately</li>\n        </ul>"

/-- The fixed section 5 text of lines 270-271. -/
def sds_fire_fighting_section : String :=
  "<h2>5. Fire-Fighting Measures</h2>\n        <p>Use appropriate fire extinguishing media for the surrounding fire.</p>"

/-- The fixed section 7 text of lines 276-277. -/
def sds_storage_section : String :=
  "<h2>7. Handling and Storage</h2>\n        <p>Store in a cool, dry, well-ventilated area away from incompatible materials.</p>"

/-- The literal of lines 255-282 appended between the two loops, written as
the concatenation of its fixed sections. -/
def sds_middle : String :=
  "\n        </ul>\n        \n        <h2>3. Composition/Information on Ingredients</h2>\n        <p>Chemical information not available in this simplified version.</p>\n        \n        " ++
  sds_first_aid_section ++
  "\n        \n        " ++
  sds_fire_fighting_section ++
  "\n        \n        <h2>6. Accidental Release Measures</h2>\n        <p>Wear proper PPE, contain spill, and dispose according to regulations.</p>\n        \n        " ++
  sds_storage_section ++
  "\n        \n        <h2>8. Exposure Controls/Personal Protection</h2>\n        <p><strong>Recommended PPE:</strong></p>\n        <ul>\n    "

/-- One PPE list item appended by the loop of lines 284-287. -/
def sds_ppe_li (ppe : PPE) : String :=
  "\n            <li>" ++ ppe.item ++ ": " ++ ppe.description ++ "</li>\n        "

/-- The literal of lines 289-295 appended last. -/
def sds_footer : String :=
  "\n        </ul>\n        \n        <h2>9-16. Other Sections</h2>\n        <p>For complete SDS, consult official sources.</p>\n    </div>\n    "

/-- `generate_sds` (lines 236-297): template strings accumulated by `+=`. -/
def generate_sds (chemical_name : String) (hazards : List PyHazard)
    (ppe_recommendations : List PPE) : String :=
  let afterHazards := hazards.foldl (fun sds_content hazard => sds_content ++ sds_hazard_li hazard)
    (sds_header_before_name ++ chemical_name ++ sds_header_after_name)
  let afterPpe := ppe_recommendations.foldl (fun sds_content ppe => sds_content ++ sds_ppe_li ppe)
    (afterHazards ++ sds_middle)
  afterPpe ++ sds_footer

/-- Substring containment on the `List Char` representation. -/
def str_contains (s t : String) : Prop :=
  ∃ a b, s.data = a ++ t.data ++ b

/-! ### get_pubchem_data (lines 46-81) -/

/-- A `requests` response, reduced to what `get_pubchem_data` inspects: its
status code and the outcome of extracting the needed value from its JSON
body (`.json()[...]` either yields the value or raises, whose message
`str(e)` is recorded). -/
structure PyResponse (α : Type) where
  status_code : Int
  payload : Except String α

/-- The environment of one `get_pubchem_data` call: what each of the two
`requests.get` calls would produce (a response, or a raised exception with
message `str(e)`).  The CID response's payload models
`response.json()['IdentifierList']['CID'][0]`; the compound response's
payload models `compound_response.json()`. -/
structure PubChemEnv (D : Type) where
  cid_get : Except String (PyResponse Nat)
  compound_get : Nat → Except String (PyResponse D)

/-- The dict returned by `get_pubchem_data`: `{'success': True, 'data': ...}`
or `{'success': False, 'error': ...}`. -/
inductive PubChemResult (D : Type) where
  | success (data : D)
  | failure (error : String)

/-- `get_pubchem_data` (lines 46-81): the whole body sits inside
`try ... except Exception as e`, so every raised exception becomes a
`failure` with the exception text. -/
def get_pubchem_data {D : Type} (env : PubChemEnv D) : PubChemResult D :=
  match env.cid_get with
  | .error e => .failure e
  | .ok response =>
    if response.status_code = 200 then
      match response.payload with
      | .error e => .failure e
      | .ok cid =>
        match env.compound_get cid with
        | .error e => .failure e
        | .ok compound_response =>
          if compound_response.status_code = 200 then
            match compound_response.payload with
            | .error e => .failure e
            | .ok compound_data => .success compound_data
          else .failure "Failed to fetch compound details"
    else .failure "Chemical not found or error in PubChem API"

/-- An environment in which every issued request returns status 200 yet the
CID extraction from the first JSON body raises. -/
def pubchem_env_cx : PubChemEnv Unit :=
  { cid_get := .ok ⟨200, .error "KeyError: IdentifierList"⟩,
    compound_get := fun _ => .ok ⟨200, .ok ()⟩ }

/-- An environment whose CID request returns status 404. -/
def pubchem_env_404 : PubChemEnv Unit :=
  { cid_get := .ok ⟨404, .error "KeyError: Fault"⟩,
    compound_get := fun _ => .ok ⟨200, .ok ()⟩ }

/-! ### The symbol display of `main` (lines 326-340) -/

/-- The `unique_hazards` accumulation of lines 326-332: the hazard codes in
first-occurrence order for which a symbol block is rendered, each obtained
from a string entry by the split of line 329. -/
def display_unique_codes (unique_hazards : List String) : List PyHazard → List String
  | [] => []
  | .str s :: rest =>
      if extract_code s ∈ unique_hazards then display_unique_codes unique_hazards rest
      else extract_code s :: display_unique_codes (extract_code s :: unique_hazards) rest
  | .nonStr _ :: rest => display_unique_codes unique_hazards rest

/-- The multiset of hazard codes extracted from the string entries of a
hazard list (the codes that drive PPE selection and symbol display). -/
def hazard_codes_of (hazards : List PyHazard) : List String :=
  hazards.filterMap (fun h => match h with
    | .str s => some (extract_code s)
    | .nonStr _ => none)

/-! ### A state model for the lookup tables (frame property) -/

/-- The three lookup tables of the two pages, as mutable-dict state. -/
structure Tables where
  hc_map : List (String × HazardInfo)
  hc_handling : List (String × String)
  chem_map : List (String × HazardInfo)
deriving DecidableEq

/-- The tables as defined in the source. -/
def init_tables : Tables := ⟨hc_hazard_map, hc_handling_instructions, chem_hazard_map⟩

/-- One user-visible operation of either page. -/
inductive Op where
  | hcLookup (code : String)
  | chemSymbol (code : String)
  | ppeCompute (hazards : List PyHazard)
  | sdsGenerate (name : String) (hazards : List PyHazard) (ppe : List PPE)

/-- The output of one operation. -/
inductive OpOutput where
  | page (o : Option HCOutput)
  | info (i : HazardInfo)
  | ppeList (l : List PPE)
  | sheet (s : String)

/-- Run one operation against the table state: each operation only reads
the tables (the source performs no dict writes), producing its output and
leaving the state as the code left it. -/
def run_op (t : Tables) : Op → Tables × OpOutput
  | .hcLookup code =>
      (t, .page (if code = "" then none
        else some (match t.hc_map.lookup code with
          | some hazard_info =>
              HCOutput.found hazard_info.symbol hazard_info.name
                ((t.hc_handling.lookup code).getD
                  "No specific handling instructions available.")
          | none => HCOutput.notFound "Hazard code not found. Please enter a valid code.")))
  | .chemSymbol code => (t, .info ((t.chem_map.lookup code).getD unknown_hazard))
  | .ppeCompute hazards => (t, .ppeList (get_ppe_recommendations hazards))
  | .sdsGenerate n hz p => (t, .sheet (generate_sds n hz p))

/-- Run a sequence of operations, threading the table state. -/
def run_ops (t : Tables) (ops : List Op) : Tables :=
  ops.foldl (fun s op => (run_op s op).1) t

/-! ## Lemmas about association-list lookup -/

theorem lookup_eq_none_of_not_mem_keys {β : Type} (l : List (String × β)) (c : String)
    (h : c ∉ l.map Prod.fst) : l.lookup c = none := by
  induction l with
  | nil => rfl
  | cons p rest ih =>
    obtain ⟨k, b⟩ := p
    simp only [List.map_cons, List.mem_cons, not_or] at h
    obtain ⟨hne, hrest⟩ := h
    have hb : (c == k) = false := beq_eq_false_iff_ne.mpr hne
    simp only [List.lookup, hb, ih hrest]

theorem lookup_eq_some_of_mem {β : Type} (l : List (String × β))
    (hnd : (l.map Prod.fst).Nodup) (c : String) (b : β) (hm : (c, b) ∈ l) :
    l.lookup c = some b := by
  induction l with
  | nil => cases hm
  | cons p rest ih =>
    obtain ⟨k, v⟩ := p
    simp only [List.map_cons, List.nodup_cons] at hnd
    obtain ⟨hknotin, hndrest⟩ := hnd
    rcases List.mem_cons.mp hm with heq | hmem
    · obtain ⟨h1, h2⟩ := Prod.mk.injEq .. ▸ heq
      subst h1; subst h2
      simp [List.lookup]
    · have hne : c ≠ k := by
        intro he
        subst he
        exact hknotin (List.mem_map_of_mem Prod.fst hmem)
      have hb : (c == k) = false := beq_eq_false_iff_ne.mpr hne
      simp only [List.lookup, hb]
      exact ih hndrest hmem

/-! ## Lemmas about the colon split -/

theorem splitColonHead_eq_takeWhile (l : List Char) :
    splitColonHead l = l.takeWhile (fun c => c != ':') := by
  induction l with
  | nil => rfl
  | cons c cs ih =>
    by_cases h : c = ':'
    · subst h; simp [splitColonHead, List.takeWhile_cons]
    · simp [splitColonHead, List.takeWhile_cons, h, ih]

/-! ## Lemmas about the deduplication loop -/

theorem remove_dup_items_sublist (seen : List String) (l : List PPE) :
    (remove_dup_items seen l).Sublist l := by
  induction l generalizing seen with
  | nil => exact List.Sublist.refl _
  | cons r rest ih =>
    by_cases h : r.item ∈ seen
    · rw [remove_dup_items, if_pos h]
      exact (ih seen).cons r
    · rw [remove_dup_items, if_neg h]
      exact (ih _).cons₂ r

theorem mem_map_item_remove_dup_items (seen : List String) (l : List PPE) (i : String) :
    i ∈ (remove_dup_items seen l).map PPE.item ↔ i ∈ l.map PPE.item ∧ i ∉ seen := by
  induction l generalizing seen with
  | nil => simp [remove_dup_items]
  | cons r rest ih =>
    by_cases h : r.item ∈ seen
    · rw [remove_dup_items, if_pos h, ih]
      simp only [List.map_cons, List.mem_cons]
      constructor
      · rintro ⟨hm, hs⟩
        exact ⟨Or.inr hm, hs⟩
      · rintro ⟨hm | hm, hs⟩
        · exact absurd (hm ▸ h) hs
        · exact ⟨hm, hs⟩
    · rw [remove_dup_items, if_neg h]
      simp only [List.map_cons, List.mem_cons, ih, List.mem_cons, not_or]
      constructor
      · rintro (hi | ⟨hm, hne, hs⟩)
        · exact ⟨Or.inl hi, hi ▸ h⟩
        · exact ⟨Or.inr hm, hs⟩
      · rintro ⟨hi | hm, hs⟩
        · exact Or.inl hi
        · by_cases he : i = r.item
          · exact Or.inl he
          · exact Or.inr ⟨hm, he, hs⟩

theorem nodup_map_item_remove_dup_items (seen : List String) (l : List PPE) :
    ((remove_dup_items seen l).map PPE.item).Nodup := by
  induction l generalizing seen with
  | nil => simp [remove_dup_items]
  | cons r rest ih =>
    by_cases h : r.item ∈ seen
    · rw [remove_dup_items, if_pos h]
      exact ih seen
    · rw [remove_dup_items, if_neg h]
      simp only [List.map_cons]
      refine List.nodup_cons.mpr ⟨?_, ih _⟩
      intro hmem
      rw [mem_map_item_remove_dup_items] at hmem
      exact hmem.2 (List.mem_cons_self _ _)

theorem find?_of_mem_remove_dup_items (seen : List String) (l : List PPE) (r : PPE)
    (h : r ∈ remove_dup_items seen l) :
    l.find? (fun x => x.item == r.item) = some r := by
  induction l generalizing seen with
  | nil => rw [remove_dup_items] at h; cases h
  | cons x rest ih =>
    by_cases hx : x.item ∈ seen
    · rw [remove_dup_items, if_pos hx] at h
      have hi : r.item ∈ (remove_dup_items seen rest).map PPE.item :=
        List.mem_map_of_mem PPE.item h
      rw [mem_map_item_remove_dup_items] at hi
      have hne : (x.item == r.item) = false :=
        beq_eq_false_iff_ne.mpr (fun he => hi.2 (he ▸ hx))
      rw [List.find?_cons_of_neg _ (by simp [hne]), ih seen h]
    · rw [remove_dup_items, if_neg hx] at h
      rcases List.mem_cons.mp h with heq | hmem
      · subst heq
        rw [List.find?_cons_of_pos _ (by simp)]
      · have hi : r.item ∈ (remove_dup_items (x.item :: seen) rest).map PPE.item :=
          List.mem_map_of_mem PPE.item hmem
        rw [mem_map_item_remove_dup_items] at hi
        have hne : (x.item == r.item) = false :=
          beq_eq_false_iff_ne.mpr (fun he => hi.2 (he ▸ List.mem_cons_self _ _))
        rw [List.find?_cons_of_neg _ (by simp [hne]), ih _ hmem]

/-! ## Lemmas about substring containment -/

theorem string_data_append (a b : String) : (a ++ b).data = a.data ++ b.data := by
  cases a; cases b; rfl

theorem str_contains_refl (s : String) : str_contains s s :=
  ⟨[], [], by simp⟩

theorem str_contains_append_left {a t : String} (h : str_contains a t) (b : String) :
    str_contains (a ++ b) t := by
  obtain ⟨x, y, hx⟩ := h
  exact ⟨x, y ++ b.data, by simp [string_data_append, hx]⟩

theorem str_contains_append_right (a : String) {b t : String} (h : str_contains b t) :
    str_contains (a ++ b) t := by
  obtain ⟨x, y, hx⟩ := h
  exact ⟨a.data ++ x, y, by simp [string_data_append, hx]⟩

theorem str_contains_foldl_init {α : Type} (f : α → String) (l : List α) (init t : String)
    (h : str_contains init t) :
    str_contains (l.foldl (fun acc x => acc ++ f x) init) t := by
  induction l generalizing init with
  | nil => exact h
  | cons x xs ih => exact ih _ (str_contains_append_left h _)

theorem str_contains_foldl_mem {α : Type} (f : α → String) (l : List α) (init : String)
    (x : α) (hx : x ∈ l) :
    str_contains (l.foldl (fun acc y => acc ++ f y) init) (f x) := by
  induction l generalizing init with
  | nil => cases hx
  | cons y ys ih =>
    rcases List.mem_cons.mp hx with heq | hmem
    · subst heq
      exact str_contains_foldl_init f ys _ _
        (str_contains_append_right _ (str_contains_refl _))
    · exact ih _ hmem

/-! ## Reduction lemmas for get_pubchem_data -/

theorem gpd_cid_error {D : Type} (env : PubChemEnv D) (e : String)
    (h : env.cid_get = Except.error e) : get_pubchem_data env = .failure e := by
  unfold get_pubchem_data; rw [h]

theorem gpd_cid_bad_status {D : Type} (env : PubChemEnv D) (r : PyResponse Nat)
    (h : env.cid_get = Except.ok r) (hs : r.status_code ≠ 200) :
    get_pubchem_data env = .failure "Chemical not found or error in PubChem API" := by
  unfold get_pubchem_data; rw [h]; simp only [if_neg hs]

theorem gpd_cid_payload_error {D : Type} (env : PubChemEnv D) (r : PyResponse Nat) (e : String)
    (h : env.cid_get = Except.ok r) (hs : r.status_code = 200)
    (hp : r.payload = Except.error e) : get_pubchem_data env = .failure e := by
  unfold get_pubchem_data; rw [h]; simp only [if_pos hs]; rw [hp]

theorem gpd_compound_error {D : Type} (env : PubChemEnv D) (r : PyResponse Nat) (cid : Nat)
    (e : String) (h : env.cid_get = Except.ok r) (hs : r.status_code = 200)
    (hp : r.payload = Except.ok cid) (hc : env.compound_get cid = Except.error e) :
    get_pubchem_data env = .failure e := by
  unfold get_pubchem_data; rw [h]; simp only [if_pos hs]; rw [hp]
  dsimp only; rw [hc]

theorem gpd_compound_bad_status {D : Type} (env : PubChemEnv D) (r : PyResponse Nat)
    (cid : Nat) (r2 : PyResponse D) (h : env.cid_get = Except.ok r) (hs : r.status_code = 200)
    (hp : r.payload = Except.ok cid) (hc : env.compound_get cid = Except.ok r2)
    (hs2 : r2.status_code ≠ 200) :
    get_pubchem_data env = .failure "Failed to fetch compound details" := by
  unfold get_pubchem_data; rw [h]; simp only [if_pos hs]; rw [hp]
  dsimp only; rw [hc]; simp only [if_neg hs2]

theorem gpd_compound_payload_error {D : Type} (env : PubChemEnv D) (r : PyResponse Nat)
    (cid : Nat) (r2 : PyResponse D) (e : String) (h : env.cid_get = Except.ok r)
    (hs : r.status_code = 200) (hp : r.payload = Except.ok cid)
    (hc : env.compound_get cid = Except.ok r2) (hs2 : r2.status_code = 200)
    (hp2 : r2.payload = Except.error e) : get_pubchem_data env = .failure e := by
  unfold get_pubchem_data; rw [h]; simp only [if_pos hs]; rw [hp]
  dsimp only; rw [hc]; simp only [if_pos hs2]; rw [hp2]

theorem gpd_success {D : Type} (env : PubChemEnv D) (r : PyResponse Nat) (cid : Nat)
    (r2 : PyResponse D) (d : D) (h : env.cid_get = Except.ok r) (hs : r.status_code = 200)
    (hp : r.payload = Except.ok cid) (hc : env.compound_get cid = Except.ok r2)
    (hs2 : r2.status_code = 200) (hp2 : r2.payload = Except.ok d) :
    get_pubchem_data env = .success d := by
  unfold get_pubchem_data; rw [h]; simp only [if_pos hs]; rw [hp]
  dsimp only; rw [hc]; simp only [if_pos hs2]; rw [hp2]

/-! ## The item set of the PPE recommendations -/

theorem mem_item_get_ppe_iff (hazards : List PyHazard) (i : String) :
    i ∈ (get_ppe_recommendations hazards).map PPE.item ↔
      (i = safety_glasses.item ∨
        ∃ c ∈ hazard_codes_of hazards, i ∈ (code_ppe c).map PPE.item) := by
  rw [get_ppe_recommendations, mem_map_item_remove_dup_items, raw_ppe_recommendations]
  simp only [List.not_mem_nil, not_false_iff, and_true, List.map_cons, List.mem_cons]
  apply or_congr Iff.rfl
  constructor
  · intro hm
    obtain ⟨x, hx, hxi⟩ := List.mem_map.mp hm
    obtain ⟨h, hh, hxh⟩ := List.mem_flatMap.mp hx
    cases h with
    | str s =>
        exact ⟨extract_code s,
          List.mem_filterMap.mpr ⟨PyHazard.str s, hh, rfl⟩,
          hxi ▸ List.mem_map_of_mem PPE.item hxh⟩
    | nonStr n => cases hxh
  · rintro ⟨c, hc, hci⟩
    obtain ⟨h, hh, hch⟩ := List.mem_filterMap.mp hc
    cases h with
    | str s =>
        obtain ⟨x, hx, hxi⟩ := List.mem_map.mp hci
        refine List.mem_map.mpr ⟨x, List.mem_flatMap.mpr ⟨PyHazard.str s, hh, ?_⟩, hxi⟩
        have hcs : extract_code s = c := by
          simpa using hch
        rw [ppe_for_hazard, hcs]
        exact hx
    | nonStr n => cases hch

/-! ## Soundness of the displayed code list -/

theorem display_unique_codes_sound (seen : List String) (hazards : List PyHazard)
    (c : String) (h : c ∈ display_unique_codes seen hazards) :
    ∃ t, PyHazard.str t ∈ hazards ∧ c = extract_code t := by
  induction hazards generalizing seen with
  | nil => rw [display_unique_codes] at h; cases h
  | cons hz rest ih =>
    cases hz with
    | str s =>
      by_cases hmem : extract_code s ∈ seen
      · rw [display_unique_codes, if_pos hmem] at h
        obtain ⟨t, ht, hct⟩ := ih seen h
        exact ⟨t, List.mem_cons_of_mem _ ht, hct⟩
      · rw [display_unique_codes, if_neg hmem] at h
        rcases List.mem_cons.mp h with heq | hmem2
        · exact ⟨s, List.mem_cons_self _ _, heq⟩
        · obtain ⟨t, ht, hct⟩ := ih _ hmem2
          exact ⟨t, List.mem_cons_of_mem _ ht, hct⟩
    | nonStr n =>
      rw [display_unique_codes] at h
      obtain ⟨t, ht, hct⟩ := ih seen h
      exact ⟨t, List.mem_cons_of_mem _ ht, hct⟩

/-! ## The claims -/

/-- C1: `get_ppe_recommendations` deduplicates the accumulated
recommendation list by `item`: the result has pairwise distinct item
values, is a subsequence of the accumulated list (so entries appear in
first-occurrence order), each returned record is the first occurrence of
its item (so it keeps that occurrence's description), and no recommended
item is dropped. -/
theorem claim_C1_ppe_dedup (hazards : List PyHazard) :
    ((get_ppe_recommendations hazards).map PPE.item).Nodup ∧
    (get_ppe_recommendations hazards).Sublist (raw_ppe_recommendations hazards) ∧
    (∀ r ∈ get_ppe_recommendations hazards,
      (raw_ppe_recommendations hazards).find? (fun x => x.item == r.item) = some r) ∧
    (∀ x ∈ raw_ppe_recommendations hazards,
      x.item ∈ (get_ppe_recommendations hazards).map PPE.item) := by
  refine ⟨nodup_map_item_remove_dup_items _ _, remove_dup_items_sublist _ _, ?_, ?_⟩
  · intro r hr
    exact find?_of_mem_remove_dup_items _ _ _ hr
  · intro x hx
    rw [get_ppe_recommendations, mem_map_item_remove_dup_items]
    exact ⟨List.mem_map_of_mem PPE.item hx, List.not_mem_nil _⟩

/-- C1 witness: on the hazard list `["H300"]` the result has distinct items
and keeps the respirator record of the first occurrence. -/
theorem claim_C1_ppe_dedup_witness :
    ((get_ppe_recommendations [PyHazard.str "H300"]).map PPE.item).Nodup ∧
    (raw_ppe_recommendations [PyHazard.str "H300"]).find?
      (fun x => x.item == respirator.item) = some respirator :=
  ⟨(claim_C1_ppe_dedup [PyHazard.str "H300"]).1,
    (claim_C1_ppe_dedup [PyHazard.str "H300"]).2.2.1 respirator (by decide)⟩

/-- C2 counterexample: in an environment where every issued request has
status 200 but the CID extraction from the first JSON body raises,
`get_pubchem_data` returns `success=False` even though no HTTP status
differs from 200 — so failure is not detected by the status codes alone,
refuting the claim as stated. -/
theorem claim_C2_counterexample :
    pubchem_env_cx.cid_get.map PyResponse.status_code = Except.ok 200 ∧
    (pubchem_env_cx.compound_get 0).map PyResponse.status_code = Except.ok 200 ∧
    get_pubchem_data pubchem_env_cx = .failure "KeyError: IdentifierList" :=
  ⟨rfl, rfl, rfl⟩

/-- C2 (amended): `get_pubchem_data` returns `success=True` exactly when
the CID request succeeds with status 200 and a parsable CID and the
compound request succeeds with status 200 and a parsable body; a non-200
status yields `success=False` with the corresponding fixed message, and a
raised exception is caught and returned as `success=False` with its text
(the total Lean function propagates no exception by construction). -/
theorem claim_C2_status_amended {D : Type} (env : PubChemEnv D) :
    ((∃ d, get_pubchem_data env = .success d) ↔
      (∃ r cid r2 d, env.cid_get = Except.ok r ∧ r.status_code = 200 ∧
        r.payload = Except.ok cid ∧ env.compound_get cid = Except.ok r2 ∧
        r2.status_code = 200 ∧ r2.payload = Except.ok d)) ∧
    (∀ e, env.cid_get = Except.error e → get_pubchem_data env = .failure e) ∧
    (∀ r, env.cid_get = Except.ok r → r.status_code ≠ 200 →
      get_pubchem_data env = .failure "Chemical not found or error in PubChem API") ∧
    (∀ r cid r2, env.cid_get = Except.ok r → r.status_code = 200 →
      r.payload = Except.ok cid → env.compound_get cid = Except.ok r2 →
      r2.status_code ≠ 200 →
      get_pubchem_data env = .failure "Failed to fetch compound details") := by
  refine ⟨⟨?_, ?_⟩, gpd_cid_error env, gpd_cid_bad_status env, ?_⟩
  · rintro ⟨d, hd⟩
    cases hcg : env.cid_get with
    | error e => rw [gpd_cid_error env e hcg] at hd; cases hd
    | ok r =>
      by_cases hs : r.status_code = 200
      · cases hp : r.payload with
        | error e => rw [gpd_cid_payload_error env r e hcg hs hp] at hd; cases hd
        | ok cid =>
          cases hc2 : env.compound_get cid with
          | error e => rw [gpd_compound_error env r cid e hcg hs hp hc2] at hd; cases hd
          | ok r2 =>
            by_cases hs2 : r2.status_code = 200
            · cases hp2 : r2.payload with
              | error e =>
                  rw [gpd_compound_payload_error env r cid r2 e hcg hs hp hc2 hs2 hp2] at hd
                  cases hd
              | ok d2 =>
                  refine ⟨r, cid, r2, d2, ?_, hs, ?_, hc2, hs2, ?_⟩ <;>
                    first
                      | exact hcg
                      | exact hp
                      | exact hp2
                      | rfl
            · rw [gpd_compound_bad_status env r cid r2 hcg hs hp hc2 hs2] at hd; cases hd
      · rw [gpd_cid_bad_status env r hcg hs] at hd; cases hd
  · rintro ⟨r, cid, r2, d, h1, h2, h3, h4, h5, h6⟩
    exact ⟨d, gpd_success env r cid r2 d h1 h2 h3 h4 h5 h6⟩
  · intro r cid r2 h1 h2 h3 h4 h5
    exact gpd_compound_bad_status env r cid r2 h1 h2 h3 h4 h5

/-- C2 witness: a CID request with status 404 yields the fixed
Chemical-not-found message. -/
theorem claim_C2_status_amended_witness :
    get_pubchem_data pubchem_env_404 =
      .failure "Chemical not found or error in PubChem API" :=
  (claim_C2_status_amended pubchem_env_404).2.2.1
    ⟨404, Except.error "KeyError: Fault"⟩ rfl (by decide)

/-- C3: for a typed code that is a key of `hazard_map`, the hazard-checker
page shows that key's symbol and name together with its handling
instruction (or the fixed fallback text when the code has no
`handling_instructions` entry); for a typed (nonempty) code that is not a
key, it shows only the not-found warning. -/
theorem claim_C3_hazard_checker (code : String) :
    (∀ info, (code, info) ∈ hc_hazard_map →
      ∃ instr, hazard_checker_page code =
          some (HCOutput.found info.symbol info.name instr) ∧
        ((code, instr) ∈ hc_handling_instructions ∨
          (code ∉ hc_handling_instructions.map Prod.fst ∧
            instr = "No specific handling instructions available."))) ∧
    (code ≠ "" → code ∉ hc_hazard_map.map Prod.fst →
      hazard_checker_page code =
        some (HCOutput.notFound "Hazard code not found. Please enter a valid code.")) := by
  constructor
  · intro info hm
    simp only [hc_hazard_map, List.mem_cons, List.not_mem_nil, or_false,
      Prod.mk.injEq] at hm
    rcases hm with ⟨rfl, rfl⟩ | ⟨rfl, rfl⟩ | ⟨rfl, rfl⟩ | ⟨rfl, rfl⟩ | ⟨rfl, rfl⟩
    · exact ⟨"Handle with care. Avoid impact and friction.",
        by decide, Or.inl (by decide)⟩
    · exact ⟨"Keep away from heat, sparks, open flames, and hot surfaces.",
        by decide, Or.inl (by decide)⟩
    · exact ⟨"If swallowed, seek medical attention immediately.",
        by decide, Or.inl (by decide)⟩
    · exact ⟨"Wear protective gloves and eye protection.",
        by decide, Or.inl (by decide)⟩
    · exact ⟨"Avoid release to the environment. Collect spillage.",
        by decide, Or.inl (by decide)⟩
  · intro hne hnot
    rw [hazard_checker_page, if_neg hne,
      lookup_eq_none_of_not_mem_keys hc_hazard_map code hnot]

/-- C3 witness: the page output for the key "H200" and for the unknown
code "H999". -/
theorem claim_C3_hazard_checker_witness :
    (∃ instr, hazard_checker_page "H200" =
        some (HCOutput.found "💥" "Explosive" instr) ∧
      (("H200", instr) ∈ hc_handling_instructions ∨
        ("H200" ∉ hc_handling_instructions.map Prod.fst ∧
          instr = "No specific handling instructions available."))) ∧
    hazard_checker_page "H999" =
      some (HCOutput.notFound "Hazard code not found. Please enter a valid code.") :=
  ⟨(claim_C3_hazard_checker "H200").1 ⟨"💥", "Explosive"⟩ (by decide),
    (claim_C3_hazard_checker "H999").2 (by decide) (by decide)⟩

/-- C4: the hazard code used for PPE selection and symbol display is
`hazard.split(':')[0] if ':' in hazard else hazard`: the characters before
the first colon when the string contains one, the whole string otherwise;
the PPE loop and the display loop both apply exactly this extraction. -/
theorem claim_C4_colon_split (s : String) :
    extract_code s =
      (if s.data.contains ':' then String.mk (s.data.takeWhile (fun c => c != ':'))
       else s) ∧
    ppe_for_hazard (PyHazard.str s) = code_ppe (extract_code s) ∧
    (∀ hazards c, c ∈ display_unique_codes [] hazards →
      ∃ t, PyHazard.str t ∈ hazards ∧ c = extract_code t) := by
  refine ⟨?_, rfl, ?_⟩
  · rw [extract_code, splitColonHead_eq_takeWhile]
  · intro hazards c hc
    exact display_unique_codes_sound [] hazards c hc

/-- C4 witness: on the hazard string "H300: Fatal if swallowed" the
displayed code comes from the colon split. -/
theorem claim_C4_colon_split_witness :
    ∃ t, PyHazard.str t ∈ [PyHazard.str "H300: Fatal if swallowed"] ∧
      "H300" = extract_code t :=
  (claim_C4_colon_split "H300: Fatal if swallowed").2.2
    [PyHazard.str "H300: Fatal if swallowed"] "H300" (by decide)

/-- C5: the generated SDS string contains the chemical name, one list item
per hazard with that hazard's symbol and name as given by
`hazard_to_symbol`, one list item per PPE recommendation with its item and
description, and the fixed first-aid, fire-fighting and storage
sections. -/
theorem claim_C5_generate_sds (chemical_name : String) (hazards : List PyHazard)
    (ppe_recommendations : List PPE) :
    str_contains (generate_sds chemical_name hazards ppe_recommendations) chemical_name ∧
    (∀ h ∈ hazards,
      str_contains (generate_sds chemical_name hazards ppe_recommendations)
        (sds_hazard_li h)) ∧
    (∀ p ∈ ppe_recommendations,
      str_contains (generate_sds chemical_name hazards ppe_recommendations)
        (sds_ppe_li p)) ∧
    str_contains (generate_sds chemical_name hazards ppe_recommendations)
      sds_first_aid_section ∧
    str_contains (generate_sds chemical_name hazards ppe_recommendations)
      sds_fire_fighting_section ∧
    str_contains (generate_sds chemical_name hazards ppe_recommendations)
      sds_storage_section := by
  have hmid : ∀ t : String, str_contains sds_middle t →
      str_contains (generate_sds chemical_name hazards ppe_recommendations) t := by
    intro t ht
    rw [generate_sds]
    exact str_contains_append_left
      (str_contains_foldl_init _ _ _ _ (str_contains_append_right _ ht)) _
  refine ⟨?_, ?_, ?_, ?_, ?_, ?_⟩
  · rw [generate_sds]
    refine str_contains_append_left (str_contains_foldl_init _ _ _ _
      (str_contains_append_left (str_contains_foldl_init _ _ _ _ ?_) _)) _
    exact str_contains_append_left
      (str_contains_append_right _ (str_contains_refl _)) _
  · intro h hh
    rw [generate_sds]
    exact str_contains_append_left (str_contains_foldl_init _ _ _ _
      (str_contains_append_left (str_contains_foldl_mem _ _ _ h hh) _)) _
  · intro p hp
    rw [generate_sds]
    exact str_contains_append_left (str_contains_foldl_mem _ _ _ p hp) _
  · exact hmid _ (str_contains_append_left (str_contains_append_left
      (str_contains_append_left (str_contains_append_left
        (str_contains_append_left (str_contains_append_right _
          (str_contains_refl _)) _) _) _) _) _)
  · exact hmid _ (str_contains_append_left (str_contains_append_left
      (str_contains_append_left (str_contains_append_right _
        (str_contains_refl _)) _) _) _)
  · exact hmid _ (str_contains_append_left (str_contains_append_right _
      (str_contains_refl _)) _)

/-- C5 witness: the sheet for acetone contains the list item of its H225
hazard. -/
theorem claim_C5_generate_sds_witness :
    str_contains (generate_sds "Acetone" [PyHazard.str "H225"] [safety_glasses])
      (sds_hazard_li (PyHazard.str "H225")) :=
  (claim_C5_generate_sds "Acetone" [PyHazard.str "H225"] [safety_glasses]).2.1
    (PyHazard.str "H225") (by decide)

/-- C6: the lookup and rendering steps are stateless: two calls of
`hazard_to_symbol`, `get_ppe_recommendations` or `generate_sds` on equal
inputs return equal outputs — the embedded functions depend on nothing but
their arguments, mirroring the absence of mutable state in the source. -/
theorem claim_C6_stateless (c1 c2 : String) (l1 l2 : List PyHazard)
    (n1 n2 : String) (hz1 hz2 : List PyHazard) (p1 p2 : List PPE)
    (hc : c1 = c2) (hl : l1 = l2) (hn : n1 = n2) (hhz : hz1 = hz2) (hp : p1 = p2) :
    hazard_to_symbol c1 = hazard_to_symbol c2 ∧
    get_ppe_recommendations l1 = get_ppe_recommendations l2 ∧
    generate_sds n1 hz1 p1 = generate_sds n2 hz2 p2 := by
  subst hc; subst hl; subst hn; subst hhz; subst hp
  exact ⟨rfl, rfl, rfl⟩

/-- C6 witness: the statelessness theorem applied at concrete inputs. -/
theorem claim_C6_stateless_witness :
    hazard_to_symbol "H225" = hazard_to_symbol "H225" ∧
    get_ppe_recommendations [PyHazard.str "H225"] =
      get_ppe_recommendations [PyHazard.str "H225"] ∧
    generate_sds "Acetone" [PyHazard.str "H225"] [safety_glasses] =
      generate_sds "Acetone" [PyHazard.str "H225"] [safety_glasses] :=
  claim_C6_stateless "H225" "H225" [PyHazard.str "H225"] [PyHazard.str "H225"]
    "Acetone" "Acetone" [PyHazard.str "H225"] [PyHazard.str "H225"]
    [safety_glasses] [safety_glasses] rfl rfl rfl rfl rfl

/-- C7: the lookup tables are static — running any sequence of page
operations leaves every table exactly as defined, and the operations read
those very tables (the single-operation outputs coincide with
`hazard_to_symbol` and the hazard-checker page). -/
theorem claim_C7_tables_static (ops : List Op) :
    run_ops init_tables ops = init_tables ∧
    (run_ops init_tables ops).hc_map = hc_hazard_map ∧
    (run_ops init_tables ops).hc_handling = hc_handling_instructions ∧
    (run_ops init_tables ops).chem_map = chem_hazard_map ∧
    (∀ code, (run_op init_tables (Op.chemSymbol code)).2 =
      OpOutput.info (hazard_to_symbol code)) ∧
    (∀ code, (run_op init_tables (Op.hcLookup code)).2 =
      OpOutput.page (hazard_checker_page code)) := by
  have hstep : ∀ (t : Tables) (op : Op), (run_op t op).1 = t := by
    intro t op; cases op <;> rfl
  have key : ∀ (l : List Op) (t : Tables), run_ops t l = t := by
    intro l
    induction l with
    | nil => intro t; rfl
    | cons op rest ih =>
        intro t
        rw [run_ops, List.foldl_cons, hstep]
        exact ih t
  refine ⟨key ops init_tables, ?_, ?_, ?_, fun code => rfl, fun code => rfl⟩
  all_goals (rw [key ops init_tables]; rfl)

/-- C8: `hazard_to_symbol` is total: every key of the table maps to its
entry and every other string maps to the fallback
`{'symbol': '❓', 'name': 'Unknown hazard'}`. -/
theorem claim_C8_symbol_total (hazard_code : String) :
    (∀ info, (hazard_code, info) ∈ chem_hazard_map →
      hazard_to_symbol hazard_code = info) ∧
    (hazard_code ∉ chem_hazard_map.map Prod.fst →
      hazard_to_symbol hazard_code = unknown_hazard) := by
  constructor
  · intro info hm
    have hnd : (chem_hazard_map.map Prod.fst).Nodup := by decide
    rw [hazard_to_symbol, lookup_eq_some_of_mem chem_hazard_map hnd _ _ hm]
    rfl
  · intro h
    rw [hazard_to_symbol, lookup_eq_none_of_not_mem_keys chem_hazard_map _ h]
    rfl

/-- C8 witness: one key and one non-key of the table. -/
theorem claim_C8_symbol_total_witness :
    hazard_to_symbol "H413" =
      ⟨"🐟", "May cause long lasting harmful effects to aquatic life"⟩ ∧
    hazard_to_symbol "H999" = unknown_hazard :=
  ⟨(claim_C8_symbol_total "H413").1
      ⟨"🐟", "May cause long lasting harmful effects to aquatic life"⟩ (by decide),
    (claim_C8_symbol_total "H999").2 (by decide)⟩

/-- C9: for every hazard list — empty or containing non-string entries —
the PPE recommendations start with the Safety Glasses record, so the
result is never empty. -/
theorem claim_C9_safety_glasses_first (hazards : List PyHazard) :
    (get_ppe_recommendations hazards).head? = some safety_glasses ∧
    get_ppe_recommendations hazards ≠ [] := by
  have hh : get_ppe_recommendations hazards =
      safety_glasses :: remove_dup_items [safety_glasses.item]
        (hazards.flatMap ppe_for_hazard) := by
    rw [get_ppe_recommendations, raw_ppe_recommendations, remove_dup_items,
      if_neg (List.not_mem_nil _)]
  rw [hh]
  exact ⟨rfl, by simp⟩

/-- C10: the set of recommended PPE items depends only on the set of
extracted hazard codes: hazard lists with the same code set (permutations,
duplicate insertions, extra non-string entries) recommend the same item
set. -/
theorem claim_C10_item_set (l1 l2 : List PyHazard)
    (hset : ∀ c, c ∈ hazard_codes_of l1 ↔ c ∈ hazard_codes_of l2) (i : String) :
    i ∈ (get_ppe_recommendations l1).map PPE.item ↔
      i ∈ (get_ppe_recommendations l2).map PPE.item := by
  rw [mem_item_get_ppe_iff, mem_item_get_ppe_iff]
  apply or_congr Iff.rfl
  constructor
  · rintro ⟨c, hc, hi⟩
    exact ⟨c, (hset c).mp hc, hi⟩
  · rintro ⟨c, hc, hi⟩
    exact ⟨c, (hset c).mpr hc, hi⟩

/-- C10 witness: a list with a colon-suffixed duplicate and a non-string
entry recommends the same items as the bare code. -/
theorem claim_C10_item_set_witness :
    ("Respirator" ∈ (get_ppe_recommendations
        [PyHazard.str "H300: Fatal if swallowed", PyHazard.nonStr 7]).map PPE.item ↔
      "Respirator" ∈ (get_ppe_recommendations [PyHazard.str "H300"]).map PPE.item) :=
  claim_C10_item_set [PyHazard.str "H300: Fatal if swallowed", PyHazard.nonStr 7]
    [PyHazard.str "H300"] (fun _ => Iff.rfl) "Respirator"

end SDSGen
